import Mathlib

/-!
Verification of the pytesseract OCR web application.

The development shallowly embeds the Python sources (`config.py`, `utils.py`,
`image_preprocessor.py`, `ocr_engine.py`, `app.py`).  Numbers that the Python
code handles as floats (confidence scores, enhancement factors) are modelled
as exact rationals; images are modelled as a size, a channel count and a
pixel-colour function; the external OCR engine (pytesseract) is an explicit
record of functions so that theorems can quantify over its behaviour.

All numeric helpers compute on `Rat.num`/`Rat.den` with integer operations so
that concrete instances reduce inside the kernel.
-/

/-! ### Python semantics helpers -/

/-- Characters removed by Python `str.strip()` (ASCII whitespace). -/
def isPySpace (c : Char) : Bool :=
  c = ' ' || c = '\t' || c = '\n' || c = '\r' || c = '\x0b' || c = '\x0c'

/-- Python `s.strip()`: drop leading and trailing whitespace. -/
def pyStrip (s : String) : String :=
  String.mk (((s.data.dropWhile isPySpace).reverse.dropWhile isPySpace).reverse)

/-- Python `s.split(sep)` for a one-character separator, on character lists:
`"a+b".split('+') == ["a","b"]`, and the empty string yields `[""]`. -/
def splitOnChar (c : Char) : List Char → List (List Char)
  | [] => [[]]
  | a :: t =>
    let r := splitOnChar c t
    if a = c then [] :: r
    else
      match r with
      | h :: t2 => (a :: h) :: t2
      | [] => [[a]]

/-- Python `s.split(sep)` for a one-character separator. -/
def pySplit (c : Char) (s : String) : List String :=
  (splitOnChar c s.data).map String.mk

/-- Python `int(x)` applied to an exact rational: truncation toward zero. -/
def pyTrunc (q : ℚ) : Int := q.num.tdiv q.den

/-- Round-half-to-even of the fraction `n / d` (for `d > 0`), the rounding used
by Python's fixed-point float formatting.  `f` is the floor and `r2` twice the
remainder, so the three branches are: fraction below one half, above one half,
and exactly one half (break the tie to the even neighbour). -/
def roundHalfEvenND (n : Int) (d : Nat) : Int :=
  let f := n.fdiv (d : Int)
  let r2 := 2 * (n - f * (d : Int))
  if r2 < (d : Int) then f
  else if (d : Int) < r2 then f + 1
  else if f % 2 = 0 then f else f + 1

/-- Python `f"{q:.0f}"` on an exact rational: round half-to-even to an
integer and print it. -/
def pyFormatFixed0 (q : ℚ) : String :=
  toString (roundHalfEvenND q.num q.den)

/-- Python `f"{q:.1f}"` on an exact rational: round `10 * q` half-to-even and
print the result with one digit after the decimal point. -/
def pyFormatFixed1 (q : ℚ) : String :=
  let n := roundHalfEvenND (10 * q.num) q.den
  let s := if n < 0 then "-" else ""
  let m := n.natAbs
  s ++ toString (m / 10) ++ "." ++ String.singleton (Char.ofNat (48 + m % 10))

/-! ### config.py -/

/-- `config.LANGUAGES`: display label to tesseract wire code. -/
def LANGUAGES : List (String × String) :=
  [("日本語", "jpn"), ("英語", "eng"), ("英語+日本語", "eng+jpn")]

/-- `config.PSM_MODES`: display label to page-segmentation-mode code. -/
def PSM_MODES : List (String × String) :=
  [("3: 完全自動ページセグメンテーション（デフォルト）", "3"),
   ("6: 単一の均一なテキストブロック", "6"),
   ("7: 単一のテキスト行", "7"),
   ("8: 単一の単語", "8"),
   ("11: 可能な限り多くのテキストを検出", "11")]

/-- `config.DEFAULT_PSM_MODE`. -/
def DEFAULT_PSM_MODE : String := "3"

/-- `config.DEFAULT_OEM_MODE`. -/
def DEFAULT_OEM_MODE : String := "3"

/-- `config.BBOX_COLOR_HIGH_CONF` (BGR). -/
def BBOX_COLOR_HIGH_CONF : Nat × Nat × Nat := (0, 255, 0)

/-- `config.BBOX_COLOR_MEDIUM_CONF` (BGR). -/
def BBOX_COLOR_MEDIUM_CONF : Nat × Nat × Nat := (0, 165, 255)

/-- `config.BBOX_COLOR_LOW_CONF` (BGR). -/
def BBOX_COLOR_LOW_CONF : Nat × Nat × Nat := (0, 0, 255)

/-- `config.BBOX_THICKNESS`. -/
def BBOX_THICKNESS : Int := 2

/-- `config.CONFIDENCE_THRESHOLD_HIGH`. -/
def CONFIDENCE_THRESHOLD_HIGH : ℚ := 80

/-- `config.CONFIDENCE_THRESHOLD_MEDIUM`. -/
def CONFIDENCE_THRESHOLD_MEDIUM : ℚ := 50

/-! ### Images -/

/-- A pixel colour: red, green and blue channel values. -/
abbrev Rgb := Nat × Nat × Nat

/-- An in-memory raster image: dimensions, number of channels of the storage
mode (3 for RGB, 1 for grayscale), and the colour of each pixel.  A
single-channel image stores one value per pixel; its colour is that value
replicated, which is exactly how PIL expands mode `L` back to RGB. -/
structure Image where
  width : Nat
  height : Nat
  channels : Nat
  pix : Nat → Nat → Rgb

/-- Reverse the channel order of a colour (RGB to BGR and back). -/
def rev3 (p : Rgb) : Rgb := (p.2.2, p.2.1, p.1)

/-- Modelled from the spec: clamping a channel value into the 0..255 range,
as the image library does after an enhancement. -/
def clamp255 (n : Int) : Nat := (max 0 (min n 255)).toNat

/-- Modelled from the spec: the luminance of a colour, the single channel kept
by a grayscale conversion (ITU-R 601 weights used by PIL). -/
def lumin (p : Rgb) : Nat := (299 * p.1 + 587 * p.2.1 + 114 * p.2.2) / 1000

/-! ### image_preprocessor.py -/

/-- `image_preprocessor.convert_to_grayscale`: PIL `image.convert('L')`.
Modelled from the spec: the result is a single-channel image whose per-pixel
value is the luminance of the original colour. -/
def convert_to_grayscale (image : Image) : Image :=
  { image with
    channels := 1
    pix := fun x y => let v := lumin (image.pix x y); (v, v, v) }

/-- `image_preprocessor.pil_to_cv2`: convert to RGB then reverse the channel
order per pixel (OpenCV stores BGR). -/
def pil_to_cv2 (image : Image) : Image :=
  { image with
    channels := 3
    pix := fun x y => rev3 (image.pix x y) }

/-- `image_preprocessor.cv2_to_pil`: reverse the channel order back (BGR to
RGB); the result is a 3-channel PIL image. -/
def cv2_to_pil (image : Image) : Image :=
  { image with
    channels := 3
    pix := fun x y => rev3 (image.pix x y) }

/-- Modelled from the spec: a local smoothing pass (the mean of a pixel and
its four neighbours, per channel), standing for the OpenCV non-local-means
denoising call; it maps pixel colours and keeps dimensions and channels. -/
def blurAt (image : Image) (x y : Nat) : Rgb :=
  let ps := [image.pix (x - 1) y, image.pix x y, image.pix (x + 1) y,
             image.pix x (y - 1), image.pix x (y + 1)]
  (((ps.map fun p => p.1).sum) / ps.length,
   ((ps.map fun p => p.2.1).sum) / ps.length,
   ((ps.map fun p => p.2.2).sum) / ps.length)

/-- Modelled from the spec: a multiplicative per-channel enhancement where
factor 1 is the identity (`128 + factor * (v - 128)`, clamped). -/
def enhanceChannel (factor : ℚ) (v : Nat) : Nat :=
  clamp255 (128 + pyTrunc (factor * ((v : ℚ) - 128)))

/-- `image_preprocessor.enhance_contrast`: PIL contrast enhancement by a
factor.  Modelled from the spec: pointwise multiplicative enhancement; keeps
dimensions and channels. -/
def enhance_contrast (image : Image) (factor : ℚ) : Image :=
  { image with pix := fun x y =>
      let p := image.pix x y
      (enhanceChannel factor p.1, enhanceChannel factor p.2.1,
       enhanceChannel factor p.2.2) }

/-- Modelled from the spec: one channel of an unsharp-masking step — blend the
original value `v` away from the blurred value `b` by the factor. -/
def sharpChannel (factor : ℚ) (v b : Nat) : Nat :=
  clamp255 ((b : Int) + pyTrunc (factor * ((v : ℚ) - (b : ℚ))))

/-- `image_preprocessor.enhance_sharpness`: PIL sharpness enhancement by a
factor.  Modelled from the spec: unsharp masking against a local smoothing;
keeps dimensions and channels. -/
def enhance_sharpness (image : Image) (factor : ℚ) : Image :=
  { image with pix := fun x y =>
      let p := image.pix x y
      let b := blurAt image x y
      (sharpChannel factor p.1 b.1, sharpChannel factor p.2.1 b.2.1,
       sharpChannel factor p.2.2 b.2.2) }

/-- `image_preprocessor.denoise_image`: convert to OpenCV form, apply the
denoising filter, convert back (so the result is a 3-channel image). -/
def denoise_image (image : Image) : Image :=
  cv2_to_pil { pil_to_cv2 image with
    pix := fun x y => blurAt (pil_to_cv2 image) x y }

/-- The body of `image_preprocessor.preprocess_image`, abstracted over the
four filters it applies: start from a copy of the input, then apply denoise,
contrast, sharpness and grayscale in that order, each only when its flag is
set. -/
def preprocessWith (den con shp gry : Image → Image) (image : Image)
    (apply_grayscale apply_contrast apply_sharpness apply_denoise : Bool) :
    Image :=
  let p0 := image
  let p1 := if apply_denoise then den p0 else p0
  let p2 := if apply_contrast then con p1 else p1
  let p3 := if apply_sharpness then shp p2 else p2
  if apply_grayscale then gry p3 else p3

/-- `image_preprocessor.preprocess_image` with the source's filters plugged
in.  The factor arguments default to 2.0 in the source; callers here pass
them explicitly. -/
def preprocess_image (image : Image)
    (apply_grayscale apply_contrast apply_sharpness apply_denoise : Bool)
    (contrast_factor sharpness_factor : ℚ) : Image :=
  preprocessWith denoise_image
    (fun i => enhance_contrast i contrast_factor)
    (fun i => enhance_sharpness i sharpness_factor)
    convert_to_grayscale
    image apply_grayscale apply_contrast apply_sharpness apply_denoise

/-! ### OCR data -/

/-- The column-oriented structured OCR result returned by
`pytesseract.image_to_data(..., output_type=Output.DICT)`: parallel lists
indexed by word position.  Confidences are exact rationals standing for the
engine's float scores. -/
structure OcrData where
  text : List String
  conf : List ℚ
  left : List Int
  top : List Int
  width : List Int
  height : List Int

/-- All columns of an `OcrData` have the length of the `text` column (the
shape pytesseract guarantees). -/
def OcrData.wf (d : OcrData) : Prop :=
  d.conf.length = d.text.length ∧ d.left.length = d.text.length ∧
  d.top.length = d.text.length ∧ d.width.length = d.text.length ∧
  d.height.length = d.text.length

instance (d : OcrData) : Decidable d.wf := by
  unfold OcrData.wf; infer_instance

/-- The row-oriented view of an `OcrData`: the sequence of word records
(text, confidence, left, top, width, height). -/
def OcrData.records (d : OcrData) :
    List (String × ℚ × Int × Int × Int × Int) :=
  d.text.zip (d.conf.zip (d.left.zip (d.top.zip (d.width.zip d.height))))

/-- The external OCR engine (pytesseract), as the three operations the
application consumes: the installed-language list, plain-text extraction
(`image_to_string`) and structured-data extraction (`image_to_data`).  The
two extraction operations take the image, the language code and the custom
config string built by the adapter. -/
structure Engine where
  languages : List String
  imageToString : Image → String → String → String
  imageToData : Image → String → String → OcrData

/-! ### utils.py -/

/-- `utils.format_confidence`: `"N/A"` for the -1 sentinel, otherwise the
value with one decimal place followed by `%`. -/
def format_confidence (confidence : ℚ) : String :=
  if confidence = -1 then "N/A" else pyFormatFixed1 confidence ++ "%"

/-- One row of the details table built by `utils.create_results_dataframe`:
stripped word, formatted confidence, and the bounding-box columns. -/
structure ResultRow where
  word : String
  confidence : String
  x : Int
  y : Int
  w : Int
  h : Int
deriving DecidableEq

/-- `utils.create_results_dataframe`: loop over the word indices, skip
entries whose stripped text is empty, and emit one row per remaining entry
(the word is stored stripped). -/
def create_results_dataframe (ocr_data : OcrData) : List ResultRow :=
  (List.range ocr_data.text.length).filterMap fun i =>
    let word := pyStrip (ocr_data.text.getD i "")
    if word = "" then none
    else some
      { word := word
        confidence := format_confidence (ocr_data.conf.getD i 0)
        x := ocr_data.left.getD i 0
        y := ocr_data.top.getD i 0
        w := ocr_data.width.getD i 0
        h := ocr_data.height.getD i 0 }

/-- `utils.calculate_average_confidence`: keep the confidences of entries
with non-empty stripped text and confidence different from -1; return 0.0
when none remain, otherwise their mean. -/
def calculate_average_confidence (ocr_data : OcrData) : ℚ :=
  let confidences :=
    ((ocr_data.conf.zip ocr_data.text).filter fun p =>
      !decide (pyStrip p.2 = "") && !decide (p.1 = -1)).map fun p => p.1
  if confidences = [] then 0
  else confidences.sum / (confidences.length : ℚ)

/-! ### ocr_engine.py -/

/-- The `custom_config` string `f'--oem {DEFAULT_OEM_MODE} --psm {psm_mode}'`
built by `perform_ocr` and `get_ocr_data`. -/
def customConfig (psm_mode : String) : String :=
  "--oem " ++ DEFAULT_OEM_MODE ++ " --psm " ++ psm_mode

/-- `ocr_engine.perform_ocr`: call the engine's plain-text extraction and
strip the result. -/
def perform_ocr (e : Engine) (image : Image) (lang psm_mode : String) :
    String :=
  pyStrip (e.imageToString image lang (customConfig psm_mode))

/-- `ocr_engine.get_ocr_data`: call the engine's structured-data
extraction. -/
def get_ocr_data (e : Engine) (image : Image) (lang psm_mode : String) :
    OcrData :=
  e.imageToData image lang (customConfig psm_mode)

/-- `ocr_engine.get_bbox_color`: pick the box colour from the confidence
against the two fixed thresholds. -/
def get_bbox_color (confidence : ℚ) : Nat × Nat × Nat :=
  if CONFIDENCE_THRESHOLD_HIGH ≤ confidence then BBOX_COLOR_HIGH_CONF
  else if CONFIDENCE_THRESHOLD_MEDIUM ≤ confidence then
    BBOX_COLOR_MEDIUM_CONF
  else BBOX_COLOR_LOW_CONF

/-- Whether a point (a pixel coordinate) lies in the closed rectangle with
the given integer corner coordinates. -/
def inRect (x1 y1 x2 y2 : Int) (px py : Nat) : Bool :=
  x1 ≤ (px : Int) && (px : Int) ≤ x2 && y1 ≤ (py : Int) && (py : Int) ≤ y2

/-- Modelled from the spec: the set of pixels `cv2.rectangle` touches — the
whole rectangle when the thickness argument is negative (filled), otherwise
a border band of the given thickness just inside the rectangle. -/
def rectRegion (x1 y1 x2 y2 t : Int) (px py : Nat) : Bool :=
  if t < 0 then inRect x1 y1 x2 y2 px py
  else inRect x1 y1 x2 y2 px py &&
    !inRect (x1 + t) (y1 + t) (x2 - t) (y2 - t) px py

/-- Modelled from the spec: `cv2.rectangle` recolours exactly the pixels of
its region. -/
def cvRectangle (img : Image) (x1 y1 x2 y2 : Int) (color : Rgb) (t : Int) :
    Image :=
  { img with
    pix := fun px py =>
      if rectRegion x1 y1 x2 y2 t px py then color else img.pix px py }

/-- Modelled from the spec: `cv2.getTextSize` for the fixed small font used
for labels — width proportional to the text length, fixed height. -/
def cvGetTextSize (s : String) : Int × Int := (8 * s.length, 10)

/-- Modelled from the spec: the set of pixels `cv2.putText` may touch — the
text box extending up from the baseline origin. -/
def textRegion (s : String) (ox oy : Int) (px py : Nat) : Bool :=
  inRect ox (oy - (cvGetTextSize s).2) (ox + (cvGetTextSize s).1) oy px py

/-- Modelled from the spec: `cv2.putText` draws the label's glyphs, touching
only pixels of its text region. -/
def cvPutText (img : Image) (s : String) (ox oy : Int) (color : Rgb) :
    Image :=
  { img with
    pix := fun px py =>
      if textRegion s ox oy px py then color else img.pix px py }

/-- The skip test of the drawing loop in `ocr_engine.draw_bounding_boxes`:
entry `i` is drawn when its stripped text is non-empty and `int(conf)` is
not -1. -/
def qualifies (d : OcrData) (i : Nat) : Bool :=
  !decide (pyStrip (d.text.getD i "") = "") &&
    !decide (pyTrunc (d.conf.getD i 0) = -1)

/-- One iteration of the drawing loop in `ocr_engine.draw_bounding_boxes`:
skip a non-qualifying entry, otherwise draw the box rectangle and, when
`show_confidence` is set, the label background and the label text. -/
def drawRecord (d : OcrData) (show_confidence : Bool) (i : Nat)
    (img : Image) : Image :=
  if qualifies d i then
    let x := d.left.getD i 0
    let y := d.top.getD i 0
    let w := d.width.getD i 0
    let h := d.height.getD i 0
    let conf := d.conf.getD i 0
    let color := get_bbox_color conf
    let img1 := cvRectangle img x y (x + w) (y + h) color BBOX_THICKNESS
    if show_confidence then
      let label := pyFormatFixed0 conf ++ "%"
      let label_size := cvGetTextSize label
      let img2 := cvRectangle img1 x (y - label_size.2 - 4)
        (x + label_size.1) y color (-1)
      cvPutText img2 label x (y - 2) (255, 255, 255)
    else img1
  else img

/-- `ocr_engine.draw_bounding_boxes`: convert the image to OpenCV form, run
the drawing loop over all word indices, convert back. -/
def draw_bounding_boxes (image : Image) (ocr_data : OcrData)
    (show_confidence : Bool) : Image :=
  cv2_to_pil ((List.range ocr_data.text.length).foldl
    (fun acc i => drawRecord ocr_data show_confidence i acc)
    (pil_to_cv2 image))

/-- The pixels the drawing loop of `draw_bounding_boxes` may touch: for some
qualifying entry, the box border, or (with `show_confidence`) the label
background or the label text box. -/
def recordRegion (d : OcrData) (show_confidence : Bool) (i : Nat)
    (px py : Nat) : Bool :=
  qualifies d i &&
    (let x := d.left.getD i 0
     let y := d.top.getD i 0
     let w := d.width.getD i 0
     let h := d.height.getD i 0
     let label := pyFormatFixed0 (d.conf.getD i 0) ++ "%"
     let label_size := cvGetTextSize label
     rectRegion x y (x + w) (y + h) BBOX_THICKNESS px py ||
       (show_confidence &&
         (rectRegion x (y - label_size.2 - 4) (x + label_size.1) y (-1)
            px py ||
          textRegion label x (y - 2) px py)))

/-- A pixel is in the drawn region when some word entry's `recordRegion`
covers it. -/
def inDrawnRegion (d : OcrData) (show_confidence : Bool) (px py : Nat) :
    Bool :=
  (List.range d.text.length).any fun i =>
    recordRegion d show_confidence i px py

/-- `ocr_engine.process_image_with_ocr`: get the structured data, the plain
text and the boxed image, and compute the average confidence over entries
with non-empty stripped text and `int(conf) != -1` (0.0 when none
qualify). -/
def process_image_with_ocr (e : Engine) (image : Image)
    (lang psm_mode : String) (show_confidence : Bool) :
    Image × String × OcrData × ℚ :=
  let ocr_data := get_ocr_data e image lang psm_mode
  let text := perform_ocr e image lang psm_mode
  let bbox_image := draw_bounding_boxes image ocr_data show_confidence
  let confidences :=
    ((ocr_data.conf.zip ocr_data.text).filter fun p =>
      !decide (pyStrip p.2 = "") && !decide (pyTrunc p.1 = -1)).map
      fun p => p.1
  let avg_confidence :=
    if confidences = [] then 0
    else confidences.sum / (confidences.length : ℚ)
  (bbox_image, text, ocr_data, avg_confidence)

/-! ### app.py -/

/-- The quadruple returned by `app.ocr_interface` to the UI: boxed image,
text output, confidence info line, details table. -/
structure UiOutput where
  image : Option Image
  text : String
  confidence_info : String
  table : Option (List ResultRow)

/-- The markdown error message `app.ocr_interface` builds when language data
is missing, with the selected label, the joined missing codes and the joined
installed-language list interpolated. -/
def missing_lang_error_msg (language : String)
    (missing_langs available_langs : List String) : String :=
  "\n**❌ エラー: 言語データが見つかりません**\n\n選択した言語（" ++ language ++
  "）のデータがインストールされていません。\n\n**不足している言語データ:** " ++
  String.intercalate ", " missing_langs ++
  "\n\n**インストール方法:**\n```bash\n# Ubuntu/Debianの場合\nsudo apt-get update\nsudo apt-get install tesseract-ocr-" ++
  missing_langs.headD "" ++
  "\n```\n\n**利用可能な言語:** " ++ String.intercalate ", " available_langs ++
  "\n\n英語（eng）であれば通常デフォルトでインストールされています。\n"

/-- The message of the generic exception handler in `app.ocr_interface`
(`f"エラーが発生しました: {str(e)}"`). -/
def processing_error_msg (e : String) : String :=
  "エラーが発生しました: " ++ e

/-- `app.ocr_interface`: the request handler.  A missing image yields the
upload prompt; an unknown language or PSM label raises `KeyError`, caught by
the generic handler; a language whose wire code needs uninstalled language
data yields the missing-language message without calling the OCR engine;
otherwise the image is preprocessed, OCR is run, and the outputs are
formatted. -/
def ocr_interface (e : Engine) (image : Option Image)
    (language psm_mode : String)
    (apply_grayscale apply_contrast apply_sharpness apply_denoise : Bool) :
    UiOutput :=
  match image with
  | none => ⟨none, "画像をアップロードしてください。", "", none⟩
  | some img =>
    match LANGUAGES.lookup language with
    | none => ⟨none, processing_error_msg ("'" ++ language ++ "'"), "", none⟩
    | some lang_code =>
      match PSM_MODES.lookup psm_mode with
      | none => ⟨none, processing_error_msg ("'" ++ psm_mode ++ "'"), "", none⟩
      | some psm_code =>
        let available_langs := e.languages
        let required_langs := pySplit '+' lang_code
        let missing_langs :=
          required_langs.filter fun lang => !available_langs.contains lang
        if missing_langs ≠ [] then
          ⟨none, missing_lang_error_msg language missing_langs available_langs,
           "", none⟩
        else
          let processed_image := preprocess_image img
            apply_grayscale apply_contrast apply_sharpness apply_denoise 2 2
          let r := process_image_with_ocr e processed_image lang_code psm_code
            true
          let extracted_text :=
            if r.2.1 = "" then "（テキストが検出されませんでした）" else r.2.1
          let confidence_info :=
            "**平均信頼度:** " ++ format_confidence r.2.2.2
          let details := create_results_dataframe r.2.2.1
          ⟨some r.1, extracted_text, confidence_info, some details⟩

/-- Apply a filter only when its flag is set (used to state the order in
which `preprocess_image` chains its stages). -/
def applyIf (b : Bool) (f : Image → Image) (image : Image) : Image :=
  if b then f image else image

/-! ### Concrete fixtures used to instantiate the theorems -/

/-- A small concrete RGB image. -/
def sampleImage : Image := ⟨4, 4, 3, fun _ _ => (10, 20, 30)⟩

/-- A small concrete OCR result: one real word, one whitespace-only entry
and one sentinel entry. -/
def sampleData : OcrData :=
  ⟨["Hi", " ", ""], [90, 50, -1], [10, 40, 0], [10, 40, 0], [5, 5, 0],
   [5, 5, 0]⟩

/-- A concrete engine with only English installed that always returns
`sampleData`. -/
def sampleEngine : Engine :=
  ⟨["eng"], fun _ _ _ => " Hi ", fun _ _ _ => sampleData⟩

/-- A second concrete engine: the same installed languages as
`sampleEngine` but different OCR operations. -/
def sampleEngine2 : Engine :=
  ⟨["eng"], fun _ _ _ => "other", fun _ _ _ => ⟨[], [], [], [], [], []⟩⟩

/-! ### Helper lemmas -/

theorem pyTrunc_eq_neg_one_iff (q : ℚ) (hq : -1 ≤ q) :
    pyTrunc q = -1 ↔ q = -1 := by
  constructor
  · intro h
    unfold pyTrunc at h
    have e1 : ((-1 : ℚ)).num = -1 := by decide
    have e2 : ((-1 : ℚ)).den = 1 := by decide
    have hnum : -(q.den : Int) ≤ q.num := by
      have h' := Rat.le_def.mp hq
      rw [e1, e2] at h'
      omega
    match hm : q.num with
    | Int.ofNat m =>
      rw [hm] at h
      have hv : (Int.ofNat m).tdiv (q.den : Int) =
          ((m / q.den : Nat) : Int) := rfl
      rw [hv] at h
      set k := m / q.den with hk
      clear_value k
      omega
    | Int.negSucc m =>
      rw [hm] at h
      have ht : (Int.negSucc m).tdiv (q.den : Int) =
          -(((m + 1) / q.den : Nat) : Int) := rfl
      rw [ht] at h
      set j := (m + 1) / q.den with hj
      clear_value j
      have hdiv : j = 1 := by omega
      have hle : q.den ≤ m + 1 := by
        by_contra hlt
        have h0 : j = 0 := by rw [hj]; exact Nat.div_eq_of_lt (by omega)
        omega
      rw [hm] at hnum
      have hns : Int.negSucc m = -((m : Int) + 1) := rfl
      rw [hns] at hnum
      have hden : m + 1 = q.den := by omega
      have hco := q.reduced
      rw [hm] at hco
      have hab : (Int.negSucc m).natAbs = m + 1 := rfl
      rw [hab, hden] at hco
      have hden1 : q.den = 1 := by
        have hg := Nat.gcd_self q.den
        have hco' : Nat.gcd q.den q.den = 1 := hco
        omega
      have hm0 : m = 0 := by omega
      have hnum1 : q.num = -1 := by rw [hm, hm0]; decide
      conv_lhs => rw [← Rat.num_divInt_den q]
      rw [hnum1, hden1]
      decide
  · rintro rfl; decide

theorem qualifies_eq_false_of_skip (d : OcrData) (i : Nat)
    (h : pyStrip (d.text.getD i "") = "" ∨ d.conf.getD i 0 = -1) :
    qualifies d i = false := by
  unfold qualifies
  rcases h with h | h
  · rw [h]
    simp
  · have h2 : pyTrunc (d.conf.getD i 0) = -1 := by rw [h]; decide
    rw [h2]
    simp

/-! ### Claims -/

/-- C4: the confidence tier is a pure function of the confidence value
against the two fixed thresholds: confidence at least 80 selects the
high-tier colour, between 50 (inclusive) and 80 the medium-tier colour, and
below 50 the low-tier colour; in particular 80 maps to high, 79.9 and 50 to
medium, and 49.9 to low. -/
theorem get_bbox_color_tiers :
    (∀ c : ℚ, 80 ≤ c → get_bbox_color c = BBOX_COLOR_HIGH_CONF) ∧
    (∀ c : ℚ, 50 ≤ c → c < 80 →
      get_bbox_color c = BBOX_COLOR_MEDIUM_CONF) ∧
    (∀ c : ℚ, c < 50 → get_bbox_color c = BBOX_COLOR_LOW_CONF) ∧
    get_bbox_color 80 = BBOX_COLOR_HIGH_CONF ∧
    get_bbox_color (799/10) = BBOX_COLOR_MEDIUM_CONF ∧
    get_bbox_color 50 = BBOX_COLOR_MEDIUM_CONF ∧
    get_bbox_color (499/10) = BBOX_COLOR_LOW_CONF := by
  have hh : CONFIDENCE_THRESHOLD_HIGH = 80 := rfl
  have hm : CONFIDENCE_THRESHOLD_MEDIUM = 50 := rfl
  refine ⟨?_, ?_, ?_, ?_, ?_, ?_, ?_⟩
  · intro c hc
    unfold get_bbox_color
    rw [if_pos (hh ▸ hc)]
  · intro c hc1 hc2
    unfold get_bbox_color
    rw [if_neg (by rw [hh]; exact not_le.mpr hc2), if_pos (hm ▸ hc1)]
  · intro c hc
    unfold get_bbox_color
    rw [if_neg (by rw [hh]; exact not_le.mpr (hc.trans (by norm_num))),
      if_neg (by rw [hm]; exact not_le.mpr hc)]
  · unfold get_bbox_color
    rw [if_pos (by rw [hh])]
  · unfold get_bbox_color
    rw [if_neg (by rw [hh]; norm_num), if_pos (by rw [hm]; norm_num)]
  · unfold get_bbox_color
    rw [if_neg (by rw [hh]; norm_num), if_pos (by rw [hm])]
  · unfold get_bbox_color
    rw [if_neg (by rw [hh]; norm_num), if_neg (by rw [hm]; norm_num)]

theorem get_bbox_color_tiers_witness :
    get_bbox_color 95 = BBOX_COLOR_HIGH_CONF :=
  get_bbox_color_tiers.1 95 (by decide)

/-- C3: `format_confidence` returns "N/A" exactly for the -1 sentinel and
otherwise renders the value with exactly one decimal digit followed by '%';
in particular `format_confidence (-1) = "N/A"` and
`format_confidence 83.456 = "83.5%"`. -/
theorem format_confidence_spec :
    format_confidence (-1) = "N/A" ∧
    format_confidence (83456/1000) = "83.5%" ∧
    ∀ c : ℚ, c ≠ -1 → ∃ s : String, ∃ d : Char,
      format_confidence c = s ++ "." ++ String.singleton d ++ "%" ∧
      d.isDigit = true := by
  refine ⟨by decide, ?_, ?_⟩
  · have : (83456/1000 : ℚ) = Rat.mk' 10432 125 := by
      rw [Rat.mk'_eq_divInt, Rat.divInt_eq_div]; norm_num
    rw [this]
    decide
  · intro c hc
    unfold format_confidence pyFormatFixed1
    rw [if_neg hc]
    refine ⟨(if roundHalfEvenND (10 * c.num) c.den < 0 then "-" else "") ++
      toString ((roundHalfEvenND (10 * c.num) c.den).natAbs / 10),
      Char.ofNat (48 + (roundHalfEvenND (10 * c.num) c.den).natAbs % 10),
      ?_, ?_⟩
    · simp [String.append_assoc]
    · have h10 : (roundHalfEvenND (10 * c.num) c.den).natAbs % 10 < 10 :=
        Nat.mod_lt _ (by norm_num)
      set k := (roundHalfEvenND (10 * c.num) c.den).natAbs % 10 with hk
      interval_cases k <;> decide

theorem format_confidence_spec_witness :
    ∃ s : String, ∃ d : Char,
      format_confidence 2 = s ++ "." ++ String.singleton d ++ "%" ∧
      d.isDigit = true :=
  format_confidence_spec.2.2 2 (by decide)

/-- C5: preprocessing with all four flags disabled returns the input image
unchanged as a value, and each individual filter stage is a no-op
pass-through when its flag is false (the output does not depend on that
stage's filter function). -/
theorem preprocess_image_noop :
    (∀ (image : Image) (cf sf : ℚ),
      preprocess_image image false false false false cf sf = image) ∧
    (∀ (den den' con shp gry : Image → Image) (image : Image)
        (gs ct sh : Bool),
      preprocessWith den con shp gry image gs ct sh false =
        preprocessWith den' con shp gry image gs ct sh false) ∧
    (∀ (den con con' shp gry : Image → Image) (image : Image)
        (gs sh dn : Bool),
      preprocessWith den con shp gry image gs false sh dn =
        preprocessWith den con' shp gry image gs false sh dn) ∧
    (∀ (den con shp shp' gry : Image → Image) (image : Image)
        (gs ct dn : Bool),
      preprocessWith den con shp gry image gs ct false dn =
        preprocessWith den con shp' gry image gs ct false dn) ∧
    (∀ (den con shp gry gry' : Image → Image) (image : Image)
        (ct sh dn : Bool),
      preprocessWith den con shp gry image false ct sh dn =
        preprocessWith den con shp gry' image false ct sh dn) := by
  refine ⟨fun _ _ _ => rfl, ?_, ?_, ?_, ?_⟩ <;> intros <;>
    simp [preprocessWith]

/-- C6: preprocess applies the enabled filters in the fixed order — denoise
first, then contrast, then sharpness, then grayscale last — and when the
grayscale flag is enabled the result is a single-channel image regardless of
the other flags. -/
theorem preprocess_image_order :
    (∀ (image : Image) (gs ct sh dn : Bool) (cf sf : ℚ),
      preprocess_image image gs ct sh dn cf sf =
        applyIf gs convert_to_grayscale
          (applyIf sh (fun i => enhance_sharpness i sf)
            (applyIf ct (fun i => enhance_contrast i cf)
              (applyIf dn denoise_image image)))) ∧
    (∀ (image : Image) (ct sh dn : Bool) (cf sf : ℚ),
      (preprocess_image image true ct sh dn cf sf).channels = 1) :=
  ⟨fun _ _ _ _ _ _ _ => rfl, fun _ _ _ _ _ _ => rfl⟩

/-- C9: a null image input yields the EmptyInput outcome — no rendered
image, the upload-prompt string as the text output, empty confidence info
and no detail table — and the result does not depend on the OCR engine in
any way (no engine call is made). -/
theorem ocr_interface_empty_input :
    (∀ (e : Engine) (language psm_mode : String) (gs ct sh dn : Bool),
      ocr_interface e none language psm_mode gs ct sh dn =
        ⟨none, "画像をアップロードしてください。", "", none⟩) ∧
    (∀ (e e' : Engine) (language psm_mode : String) (gs ct sh dn : Bool),
      ocr_interface e none language psm_mode gs ct sh dn =
        ocr_interface e' none language psm_mode gs ct sh dn) :=
  ⟨fun _ _ _ _ _ _ _ => rfl, fun _ _ _ _ _ _ _ _ => rfl⟩

theorem filter_trunc_eq_filter_sentinel (d : OcrData)
    (hconf : ∀ c ∈ d.conf, (-1 : ℚ) ≤ c) :
    ((d.conf.zip d.text).filter fun p =>
      !decide (pyStrip p.2 = "") && !decide (pyTrunc p.1 = -1)) =
    ((d.conf.zip d.text).filter fun p =>
      !decide (pyStrip p.2 = "") && !decide (p.1 = -1)) := by
  apply List.filter_congr
  intro p hp
  obtain ⟨c, t⟩ := p
  have hc : (-1 : ℚ) ≤ c := hconf c (List.of_mem_zip hp).1
  rw [decide_eq_decide.mpr (pyTrunc_eq_neg_one_iff c hc)]

/-- C1: the average confidence returned by `process_image_with_ocr` is the
arithmetic mean over exactly those word records whose stripped text is
non-empty and whose confidence is not the -1 sentinel; when no record
qualifies the result is exactly 0 (a total computation: no error and no
NaN).  The hypothesis is the data-model invariant that every confidence is
at least the -1 sentinel. -/
theorem process_image_with_ocr_avg (e : Engine) (image : Image)
    (lang psm_mode : String) (show_confidence : Bool)
    (hconf : ∀ c ∈ (get_ocr_data e image lang psm_mode).conf,
      (-1 : ℚ) ≤ c) :
    (process_image_with_ocr e image lang psm_mode show_confidence).2.2.2 =
      let d := get_ocr_data e image lang psm_mode
      let qual := (d.conf.zip d.text).filter fun p =>
        !decide (pyStrip p.2 = "") && !decide (p.1 = -1)
      if qual = [] then 0
      else (qual.map fun p => p.1).sum / (qual.length : ℚ) := by
  have hfe := filter_trunc_eq_filter_sentinel
    (get_ocr_data e image lang psm_mode) hconf
  simp only [process_image_with_ocr, hfe, List.map_eq_nil_iff,
    List.length_map]

theorem process_image_with_ocr_avg_witness :
    (process_image_with_ocr sampleEngine sampleImage "eng" "3" true).2.2.2 =
      let d := get_ocr_data sampleEngine sampleImage "eng" "3"
      let qual := (d.conf.zip d.text).filter fun p =>
        !decide (pyStrip p.2 = "") && !decide (p.1 = -1)
      if qual = [] then 0
      else (qual.map fun p => p.1).sum / (qual.length : ℚ) :=
  process_image_with_ocr_avg sampleEngine sampleImage "eng" "3" true
    (by decide)

/-- C10: the inline average-confidence computation in
`process_image_with_ocr` (which drops a record when `int(conf) == -1`)
returns the same value as `utils.calculate_average_confidence` (which drops
a record when `conf == -1`) on the OCR data the call returns, for every
input whose confidences respect the data model's -1 lower bound. -/
theorem process_avg_matches_calculate_average (e : Engine) (image : Image)
    (lang psm_mode : String) (show_confidence : Bool)
    (hconf : ∀ c ∈ (get_ocr_data e image lang psm_mode).conf,
      (-1 : ℚ) ≤ c) :
    (process_image_with_ocr e image lang psm_mode show_confidence).2.2.2 =
      calculate_average_confidence
        (process_image_with_ocr e image lang psm_mode
          show_confidence).2.2.1 := by
  have hfe := filter_trunc_eq_filter_sentinel
    (get_ocr_data e image lang psm_mode) hconf
  simp only [process_image_with_ocr, calculate_average_confidence, hfe]

theorem process_avg_matches_calculate_average_witness :
    (process_image_with_ocr sampleEngine sampleImage "eng" "3" true).2.2.2 =
      calculate_average_confidence
        (process_image_with_ocr sampleEngine sampleImage "eng" "3"
          true).2.2.1 :=
  process_avg_matches_calculate_average sampleEngine sampleImage "eng" "3"
    true (by decide)

/-- C2: when the wire code of the selected language, split on '+', contains
an identifier not in the engine's installed-language list, the handler
returns the MissingLanguageData outcome — no rendered image, no table, and
the error message built from exactly the list of missing codes and the
installed-language list — and no OCR engine call is attempted (the output
only depends on the engine through its installed-language list); the
concrete scenario Japanese selected with only English installed follows by
instantiation. -/
theorem ocr_interface_missing_language (e : Engine) (img : Image)
    (language psm_mode lang_code psm_code : String)
    (hlang : LANGUAGES.lookup language = some lang_code)
    (hpsm : PSM_MODES.lookup psm_mode = some psm_code)
    (hmiss : (pySplit '+' lang_code).filter
      (fun lang => !e.languages.contains lang) ≠ [])
    (gs ct sh dn : Bool) :
    (ocr_interface e (some img) language psm_mode gs ct sh dn =
      ⟨none, missing_lang_error_msg language
        ((pySplit '+' lang_code).filter fun lang =>
          !e.languages.contains lang) e.languages, "", none⟩) ∧
    (∀ e' : Engine, e'.languages = e.languages →
      ocr_interface e' (some img) language psm_mode gs ct sh dn =
        ocr_interface e (some img) language psm_mode gs ct sh dn) := by
  constructor
  · unfold ocr_interface
    rw [hlang, hpsm]
    simp only []
    rw [if_pos hmiss]
  · intro e' he
    unfold ocr_interface
    rw [hlang, hpsm, he]
    simp only []
    rw [if_pos hmiss, if_pos hmiss]

theorem ocr_interface_missing_language_witness :
    (ocr_interface sampleEngine (some sampleImage) "日本語"
        "3: 完全自動ページセグメンテーション（デフォルト）"
        false false false false =
      ⟨none, missing_lang_error_msg "日本語"
        ((pySplit '+' "jpn").filter fun lang =>
          !sampleEngine.languages.contains lang) sampleEngine.languages,
       "", none⟩) ∧
    (∀ e' : Engine, e'.languages = sampleEngine.languages →
      ocr_interface e' (some sampleImage) "日本語"
          "3: 完全自動ページセグメンテーション（デフォルト）"
          false false false false =
        ocr_interface sampleEngine (some sampleImage) "日本語"
          "3: 完全自動ページセグメンテーション（デフォルト）"
          false false false false) :=
  ocr_interface_missing_language sampleEngine sampleImage "日本語"
    "3: 完全自動ページセグメンテーション（デフォルト）" "jpn" "3"
    (by decide) (by decide) (by decide) false false false false

theorem create_results_dataframe_zip (ts : List String) (cs : List ℚ)
    (ls tps ws hs : List Int)
    (hc : cs.length = ts.length) (hl : ls.length = ts.length)
    (ht : tps.length = ts.length) (hw : ws.length = ts.length)
    (hh : hs.length = ts.length) :
    ((List.range ts.length).filterMap fun i =>
      if pyStrip (ts.getD i "") = "" then none
      else some (ResultRow.mk (pyStrip (ts.getD i ""))
        (format_confidence (cs.getD i 0))
        (ls.getD i 0) (tps.getD i 0) (ws.getD i 0) (hs.getD i 0))) =
    ((ts.zip (cs.zip (ls.zip (tps.zip (ws.zip hs))))).filterMap fun r =>
      if pyStrip r.1 = "" then none
      else some (ResultRow.mk (pyStrip r.1) (format_confidence r.2.1)
        r.2.2.1 r.2.2.2.1 r.2.2.2.2.1 r.2.2.2.2.2)) := by
  induction ts generalizing cs ls tps ws hs with
  | nil => simp
  | cons t ts ih =>
    cases cs with
    | nil => simp at hc
    | cons c cs =>
      cases ls with
      | nil => simp at hl
      | cons l ls =>
        cases tps with
        | nil => simp at ht
        | cons tp tps =>
          cases ws with
          | nil => simp at hw
          | cons w ws =>
            cases hs with
            | nil => simp at hh
            | cons hgt hs =>
              simp only [List.length_cons] at hc hl ht hw hh
              simp only [List.length_cons, List.range_succ_eq_map,
                List.filterMap_cons, List.filterMap_map, Function.comp_def,
                Nat.succ_eq_add_one, List.getD_cons_zero,
                List.getD_cons_succ, List.zip_cons_cons]
              rw [ih cs ls tps ws hs (by omega) (by omega) (by omega)
                (by omega) (by omega)]

theorem length_filterMap_row (rs : List (String × ℚ × Int × Int × Int × Int)) :
    (rs.filterMap fun r =>
      if pyStrip r.1 = "" then none
      else some (ResultRow.mk (pyStrip r.1) (format_confidence r.2.1)
        r.2.2.1 r.2.2.2.1 r.2.2.2.2.1 r.2.2.2.2.2)).length =
    rs.countP fun r => !decide (pyStrip r.1 = "") := by
  induction rs with
  | nil => rfl
  | cons r rs ih =>
    rw [List.filterMap_cons, List.countP_cons]
    by_cases hword : pyStrip r.1 = ""
    · rw [if_pos hword]
      simp only []
      rw [ih]
      simp [hword]
    · rw [if_neg hword]
      simp only []
      rw [List.length_cons, ih]
      simp [hword]

/-- C7: for a well-formed OCR result set, the details table from
`create_results_dataframe` has one row per word record whose stripped text
is non-empty, in the result set's order, with columns stripped word,
formatted confidence, x, y, width and height; records with empty or
whitespace-only text produce no row at all, so the row count equals the
number of non-empty-text records. -/
theorem create_results_dataframe_rows (d : OcrData) (hwf : d.wf) :
    create_results_dataframe d =
      (d.records.filterMap fun r =>
        if pyStrip r.1 = "" then none
        else some (ResultRow.mk (pyStrip r.1) (format_confidence r.2.1)
          r.2.2.1 r.2.2.2.1 r.2.2.2.2.1 r.2.2.2.2.2)) ∧
    (create_results_dataframe d).length =
      d.records.countP fun r => !decide (pyStrip r.1 = "") := by
  obtain ⟨h1, h2, h3, h4, h5⟩ := hwf
  have hzip : create_results_dataframe d =
      d.records.filterMap fun r =>
        if pyStrip r.1 = "" then none
        else some (ResultRow.mk (pyStrip r.1) (format_confidence r.2.1)
          r.2.2.1 r.2.2.2.1 r.2.2.2.2.1 r.2.2.2.2.2) := by
    unfold create_results_dataframe OcrData.records
    exact create_results_dataframe_zip d.text d.conf d.left d.top d.width
      d.height h1 h2 h3 h4 h5
  refine ⟨hzip, ?_⟩
  rw [hzip, length_filterMap_row]

theorem create_results_dataframe_rows_witness :
    create_results_dataframe sampleData =
      (sampleData.records.filterMap fun r =>
        if pyStrip r.1 = "" then none
        else some (ResultRow.mk (pyStrip r.1) (format_confidence r.2.1)
          r.2.2.1 r.2.2.2.1 r.2.2.2.2.1 r.2.2.2.2.2)) ∧
    (create_results_dataframe sampleData).length =
      sampleData.records.countP fun r => !decide (pyStrip r.1 = "") :=
  create_results_dataframe_rows sampleData (by decide)

theorem rev3_rev3 (p : Rgb) : rev3 (rev3 p) = p := rfl

theorem drawRecord_pix (d : OcrData) (sc : Bool) (i : Nat) (img : Image)
    (px py : Nat) (h : recordRegion d sc i px py = false) :
    (drawRecord d sc i img).pix px py = img.pix px py := by
  unfold recordRegion at h
  unfold drawRecord
  by_cases hq : qualifies d i = true
  · rw [hq, Bool.true_and] at h
    rw [if_pos hq]
    simp only [Bool.or_eq_false_iff, Bool.and_eq_false_iff] at h
    obtain ⟨hbox, hlab⟩ := h
    by_cases hsc : sc = true
    · rw [if_pos hsc]
      rcases hlab with hlab | hlab
      · rw [hsc] at hlab; exact absurd hlab (by simp)
      · obtain ⟨hbg, htxt⟩ := hlab
        simp only [cvPutText, cvRectangle]
        rw [htxt, hbg, hbox]
        simp
    · rw [if_neg hsc]
      simp only [cvRectangle]
      rw [hbox]
      simp
  · rw [if_neg hq]

theorem drawRecord_dims (d : OcrData) (sc : Bool) (i : Nat) (img : Image) :
    (drawRecord d sc i img).width = img.width ∧
    (drawRecord d sc i img).height = img.height := by
  unfold drawRecord cvRectangle cvPutText
  by_cases hq : qualifies d i = true
  · rw [if_pos hq]
    by_cases hsc : sc = true
    · rw [if_pos hsc]; exact ⟨rfl, rfl⟩
    · rw [if_neg hsc]; exact ⟨rfl, rfl⟩
  · rw [if_neg hq]; exact ⟨rfl, rfl⟩

theorem foldDraw_pix (d : OcrData) (sc : Bool) (px py : Nat) :
    ∀ (l : List Nat) (img : Image),
      (∀ i ∈ l, recordRegion d sc i px py = false) →
      (l.foldl (fun acc i => drawRecord d sc i acc) img).pix px py =
        img.pix px py
  | [], _, _ => rfl
  | i :: l, img, h => by
    rw [List.foldl_cons]
    rw [foldDraw_pix d sc px py l (drawRecord d sc i img)
      (fun j hj => h j (List.mem_cons_of_mem _ hj))]
    exact drawRecord_pix d sc i img px py (h i (List.mem_cons_self _ _))

theorem foldDraw_dims (d : OcrData) (sc : Bool) :
    ∀ (l : List Nat) (img : Image),
      (l.foldl (fun acc i => drawRecord d sc i acc) img).width = img.width ∧
      (l.foldl (fun acc i => drawRecord d sc i acc) img).height = img.height
  | [], _ => ⟨rfl, rfl⟩
  | i :: l, img => by
    rw [List.foldl_cons]
    obtain ⟨hw, hh⟩ := foldDraw_dims d sc l (drawRecord d sc i img)
    obtain ⟨hw2, hh2⟩ := drawRecord_dims d sc i img
    exact ⟨hw.trans hw2, hh.trans hh2⟩

/-- C8: `draw_bounding_boxes` draws nothing for a word record whose stripped
text is empty or whose confidence equals -1 (such a record's drawable region
is empty); the output image keeps the input's width and height; and every
pixel outside the drawn rectangles and labels keeps its original colour — in
particular, when every record is skipped the whole image is unchanged. -/
theorem draw_bounding_boxes_frame (image : Image) (d : OcrData)
    (sc : Bool) :
    ((draw_bounding_boxes image d sc).width = image.width ∧
     (draw_bounding_boxes image d sc).height = image.height) ∧
    (∀ i px py,
      pyStrip (d.text.getD i "") = "" ∨ d.conf.getD i 0 = -1 →
      recordRegion d sc i px py = false) ∧
    (∀ px py, inDrawnRegion d sc px py = false →
      (draw_bounding_boxes image d sc).pix px py = image.pix px py) ∧
    ((∀ i, qualifies d i = false) →
      ∀ px py,
        (draw_bounding_boxes image d sc).pix px py = image.pix px py) := by
  have hpix : ∀ px py,
      (∀ i ∈ List.range d.text.length,
        recordRegion d sc i px py = false) →
      (draw_bounding_boxes image d sc).pix px py = image.pix px py := by
    intro px py hall
    unfold draw_bounding_boxes
    show rev3 (((List.range d.text.length).foldl
      (fun acc i => drawRecord d sc i acc) (pil_to_cv2 image)).pix px py) =
      image.pix px py
    rw [foldDraw_pix d sc px py (List.range d.text.length)
      (pil_to_cv2 image) hall]
    exact rev3_rev3 (image.pix px py)
  refine ⟨?_, ?_, ?_, ?_⟩
  · obtain ⟨hw, hh⟩ := foldDraw_dims d sc (List.range d.text.length)
      (pil_to_cv2 image)
    exact ⟨hw, hh⟩
  · intro i px py h
    unfold recordRegion
    rw [qualifies_eq_false_of_skip d i h]
    rfl
  · intro px py h
    apply hpix
    intro i hi
    unfold inDrawnRegion at h
    rw [List.any_eq_false] at h
    simpa using h i hi
  · intro hq px py
    apply hpix
    intro i _
    unfold recordRegion
    rw [hq i]
    rfl

theorem draw_bounding_boxes_frame_witness :
    recordRegion sampleData true 1 0 0 = false ∧
    (draw_bounding_boxes sampleImage sampleData true).pix 0 0 =
      sampleImage.pix 0 0 :=
  ⟨(draw_bounding_boxes_frame sampleImage sampleData true).2.1 1 0 0
      (by decide),
   (draw_bounding_boxes_frame sampleImage sampleData true).2.2.1 0 0
      (by decide)⟩
